import Mathlib

/-!
Shallow embedding of `bilibili_spider/pages/settings_page.py` (class
`SettingsPage`), the settings panel of the bilibili_spider GUI.

The page delegates to three collaborators that are part of the repository
but whose source is not available here: the configuration object
(`config`), the database handler (`db_handler`) and the cookie helper.
Those collaborators are modelled from the spec (section 6, External
Interfaces) and marked as such in their doc comments.  The page's own
handlers (`save_cookie`, `validate_cookie`, `clear_cookie`,
`clear_database`, `load_settings`, `on_cookie_received`, `save_settings`)
are translated statement by statement from the Python source.

Each handler is a function from the page state (plus the user's answer to
a confirmation dialog, or an injected collaborator fault, where the source
has one) to the new page state together with the list of observable
events: collaborator calls and message boxes, in program order.
-/

/-- Observable events of one user action: calls into the two stateful
collaborators and the message boxes shown to the user, in program order. -/
inductive Event where
  | configClearCookie
  | configSetCookie (cookie : String)
  | configValidateCookie (cookie : String)
  | dbSaveCookie (cookie : String)
  | dbClearCookies
  | dbClearDatabase
  | dbGetValidCookie
  | configWriteDelayMin (v : Int)
  | configWriteDelayMax (v : Int)
  | configWriteMaxRetries (v : Int)
  | msgWarning (text : String)
  | msgInfo (text : String)
  | msgCritical (text : String)
  deriving Repr, DecidableEq

/-- Modelled from the spec: the `Config` collaborator is a process-wide
mutable configuration holding `DELAY_MIN`, `DELAY_MAX`, `MAX_RETRIES` and
the active credential string (the cookie). -/
structure Config where
  cookie : Option String
  DELAY_MIN : Int
  DELAY_MAX : Int
  MAX_RETRIES : Int
  deriving Repr, DecidableEq

/-- Modelled from the spec: the `Storage` collaborator (`db_handler`)
persists at most one credential together with its near-expiry flag, plus
the crawled data (abstracted to a row count). -/
structure DbHandler where
  cookie : Option String
  needUpdate : Bool
  rowCount : Nat
  deriving Repr, DecidableEq

/-- `pat` is an initial segment of `s` (over character lists). -/
def charsStartWith : List Char → List Char → Bool
  | [], _ => true
  | _ :: _, [] => false
  | a :: as, b :: bs => a == b && charsStartWith as bs

/-- `pat` occurs as a contiguous segment of `s` (over character lists). -/
def charsContain (pat : List Char) : List Char → Bool
  | [] => charsStartWith pat []
  | b :: bs => charsStartWith pat (b :: bs) || charsContain pat bs

/-- Helper: `field` occurs as a substring of `s`. -/
def hasField (s field : String) : Bool :=
  charsContain field.data s.data

/-- Python's `str.strip()`: drop whitespace from both ends. -/
def pyStrip (s : String) : String :=
  ⟨((s.data.dropWhile Char.isWhitespace).reverse.dropWhile Char.isWhitespace).reverse⟩

/-- Modelled from the spec: `Config.validate_credential(text)` performs
structural validation — presence of the three required sub-fields
`SESSDATA`, `bili_jct`, `DedeUserID` (named in the page's placeholder
text). -/
def Config.validate_cookie (c : String) : Bool :=
  hasField c "SESSDATA" && hasField c "bili_jct" && hasField c "DedeUserID"

/-- Modelled from the spec: `Config.set_credential(text) -> bool` succeeds
exactly on structural validation, storing the credential in memory. -/
def Config.set_cookie (cfg : Config) (c : String) : Config × Bool :=
  if Config.validate_cookie c then ({ cfg with cookie := some c }, true)
  else (cfg, false)

/-- Modelled from the spec: `Config.clear_credential()` clears Config's
in-memory credential (Storage is a separate collaborator). -/
def Config.clear_cookie (cfg : Config) : Config :=
  { cfg with cookie := none }

/-- Modelled from the spec: `Storage.get_valid_credential() ->
(text_or_none, bool)`. -/
def DbHandler.get_valid_cookie (db : DbHandler) : Option String × Bool :=
  (db.cookie, db.needUpdate)

/-- Modelled from the spec: `Storage.save_credential(text)` persists the
credential; the near-expiry flag is Storage's own business and is left
abstract (unchanged). -/
def DbHandler.save_cookie (db : DbHandler) (c : String) : DbHandler :=
  { db with cookie := some c }

/-- Modelled from the spec: `Storage.clear_credentials()` removes every
stored credential. -/
def DbHandler.clear_cookies (db : DbHandler) : DbHandler :=
  { db with cookie := none }

/-- Modelled from the spec: `Storage.clear_all_data()` deletes all crawled
data. -/
def DbHandler.clear_database (db : DbHandler) : DbHandler :=
  { db with rowCount := 0 }

/-- The mutable state of `SettingsPage` that the handlers read and write:
the two collaborators, the cookie input field (`cookie_input`), the status
label (`cookie_status_label`) and the three spin boxes. -/
structure SettingsPage where
  config : Config
  db : DbHandler
  cookieInput : String
  cookieStatusLabel : String
  minDelay : Int
  maxDelay : Int
  maxRetries : Int
  deriving Repr, DecidableEq

/-- Python truthiness of `Optional[str]`: `None` and the empty string are
falsy. -/
def optTruthy : Option String → Bool
  | none => false
  | some s => s ≠ ""

/-- `SettingsPage.load_settings` (source lines 369-403): queries
`db_handler.get_valid_cookie()`; if the cookie is truthy it is written into
the input field and the status label is set from the near-expiry flag,
otherwise the label reports that no cookie is set. -/
def SettingsPage.load_settings (st : SettingsPage) : SettingsPage × List Event :=
  let res := st.db.get_valid_cookie
  let st' :=
    match res with
    | (some c, needUpdate) =>
      if c = "" then { st with cookieStatusLabel := "当前状态: 未设置Cookie" }
      else
        let st₁ := { st with cookieInput := c }
        if needUpdate then { st₁ with cookieStatusLabel := "当前状态: Cookie即将过期" }
        else { st₁ with cookieStatusLabel := "当前状态: Cookie有效" }
    | (none, _) => { st with cookieStatusLabel := "当前状态: 未设置Cookie" }
  (st', [Event.dbGetValidCookie])

/-- `SettingsPage.validate_cookie` (source lines 405-420): strips the
input; warns on empty input without consulting Config; otherwise delegates
to `config.validate_cookie` and reports the outcome. -/
def SettingsPage.validate_cookie (st : SettingsPage) : SettingsPage × List Event :=
  let cookie := pyStrip st.cookieInput
  if cookie = "" then (st, [Event.msgWarning "请输入Cookie"])
  else if Config.validate_cookie cookie then
    (st, [Event.configValidateCookie cookie, Event.msgInfo "Cookie格式验证通过"])
  else
    (st, [Event.configValidateCookie cookie, Event.msgWarning "Cookie格式不正确或缺少必要字段"])

/-- `SettingsPage.save_cookie` (source lines 422-443): strips the input;
warns on empty input; otherwise calls `config.clear_cookie()`, then
`config.set_cookie(cookie)`; on success persists via
`db_handler.save_cookie`, reloads the status and reports success; on
failure warns about the malformed cookie. -/
def SettingsPage.save_cookie (st : SettingsPage) : SettingsPage × List Event :=
  let cookie := pyStrip st.cookieInput
  if cookie = "" then (st, [Event.msgWarning "请输入Cookie"])
  else
    let st₁ := { st with config := st.config.clear_cookie }
    let (cfg, ok) := st₁.config.set_cookie cookie
    let st₂ := { st₁ with config := cfg }
    if ok then
      let st₃ := { st₂ with db := st₂.db.save_cookie cookie }
      let (st₄, evLoad) := st₃.load_settings
      (st₄, [Event.configClearCookie, Event.configSetCookie cookie,
             Event.dbSaveCookie cookie] ++ evLoad ++ [Event.msgInfo "Cookie保存成功"])
    else
      (st₂, [Event.configClearCookie, Event.configSetCookie cookie,
             Event.msgWarning "Cookie格式不正确或缺少必要字段"])

/-- `SettingsPage.clear_cookie` (source lines 445-462): asks for
confirmation; when the user answers Yes, clears the input field, the
config cookie and the stored cookies, reloads the status and reports
success; otherwise does nothing. -/
def SettingsPage.clear_cookie (st : SettingsPage) (confirmed : Bool) :
    SettingsPage × List Event :=
  if confirmed then
    let st₁ := { st with cookieInput := "" }
    let st₂ := { st₁ with config := st₁.config.clear_cookie }
    let st₃ := { st₂ with db := st₂.db.clear_cookies }
    let (st₄, evLoad) := st₃.load_settings
    (st₄, [Event.configClearCookie, Event.dbClearCookies] ++ evLoad
          ++ [Event.msgInfo "Cookie已清除"])
  else (st, [])

/-- `SettingsPage.clear_database` (source lines 464-479): asks for
confirmation; when the user answers Yes, calls
`db_handler.clear_database()` and reports success; otherwise does
nothing. -/
def SettingsPage.clear_database (st : SettingsPage) (confirmed : Bool) :
    SettingsPage × List Event :=
  if confirmed then
    ({ st with db := st.db.clear_database },
     [Event.dbClearDatabase, Event.msgInfo "数据库已清空"])
  else (st, [])

/-- A collaborator fault injected into `on_cookie_received`: the named
call raises an exception with the given message (its effect is lost). -/
inductive Fault where
  | atSetCookie (msg : String)
  | atSaveCookie (msg : String)
  deriving Repr, DecidableEq

/-- `SettingsPage.on_cookie_received` (source lines 353-367), the
completion callback of the cookie helper: writes the cookie into the input
field, then `if config.set_cookie(cookie):` persists via
`db_handler.save_cookie`, reloads the status and reports success; when
`set_cookie` returns `False` nothing else happens.  The whole body sits in
a `try` block whose `except` shows a critical message box; `fault` injects
an exception at one of the two collaborator calls. -/
def SettingsPage.on_cookie_received (fault : Option Fault) (st : SettingsPage)
    (cookie : String) : SettingsPage × List Event :=
  let st₁ := { st with cookieInput := cookie }
  match fault with
  | some (Fault.atSetCookie m) =>
    (st₁, [Event.configSetCookie cookie, Event.msgCritical ("处理Cookie失败: " ++ m)])
  | some (Fault.atSaveCookie m) =>
    let (cfg, ok) := st₁.config.set_cookie cookie
    let st₂ := { st₁ with config := cfg }
    if ok then
      (st₂, [Event.configSetCookie cookie, Event.dbSaveCookie cookie,
             Event.msgCritical ("处理Cookie失败: " ++ m)])
    else (st₂, [Event.configSetCookie cookie])
  | none =>
    let (cfg, ok) := st₁.config.set_cookie cookie
    let st₂ := { st₁ with config := cfg }
    if ok then
      let st₃ := { st₂ with db := st₂.db.save_cookie cookie }
      let (st₄, evLoad) := st₃.load_settings
      (st₄, [Event.configSetCookie cookie, Event.dbSaveCookie cookie] ++ evLoad
            ++ [Event.msgInfo "Cookie已获取并保存！"])
    else (st₂, [Event.configSetCookie cookie])

/-- `SettingsPage.save_settings` (source lines 497-506): writes the three
current spin-box values into `config.DELAY_MIN`, `config.DELAY_MAX` and
`config.MAX_RETRIES`. -/
def SettingsPage.save_settings (st : SettingsPage) : SettingsPage × List Event :=
  ({ st with config := { st.config with
       DELAY_MIN := st.minDelay, DELAY_MAX := st.maxDelay,
       MAX_RETRIES := st.maxRetries } },
   [Event.configWriteDelayMin st.minDelay, Event.configWriteDelayMax st.maxDelay,
    Event.configWriteMaxRetries st.maxRetries])

/-- A `QSpinBox` with range `[lo, hi]` clamps any assigned value. -/
def clampSpin (lo hi v : Int) : Int := max lo (min hi v)

/-- The user edits the delay-min spin box (range 0-100, source lines
200-201); its `valueChanged` signal is wired to `save_settings` (source
line 337). -/
def SettingsPage.change_min_delay (st : SettingsPage) (v : Int) :
    SettingsPage × List Event :=
  SettingsPage.save_settings { st with minDelay := clampSpin 0 100 v }

/-- The user edits the delay-max spin box (range 0-100, source lines
221-222); its `valueChanged` signal is wired to `save_settings` (source
line 338). -/
def SettingsPage.change_max_delay (st : SettingsPage) (v : Int) :
    SettingsPage × List Event :=
  SettingsPage.save_settings { st with maxDelay := clampSpin 0 100 v }

/-- The user edits the max-retries spin box (range 0-10, source lines
249-250); its `valueChanged` signal is wired to `save_settings` (source
line 339). -/
def SettingsPage.change_max_retries (st : SettingsPage) (v : Int) :
    SettingsPage × List Event :=
  SettingsPage.save_settings { st with maxRetries := clampSpin 0 10 v }

/-- Recogniser for `config.set_cookie` call events. -/
def Event.isConfigSetCookie : Event → Bool
  | Event.configSetCookie _ => true
  | _ => false

/-- Recogniser for `db_handler.save_cookie` call events. -/
def Event.isDbSaveCookie : Event → Bool
  | Event.dbSaveCookie _ => true
  | _ => false

/-- Recogniser for `db_handler.clear_cookies` call events. -/
def Event.isDbClearCookies : Event → Bool
  | Event.dbClearCookies => true
  | _ => false

/-- Recogniser for `db_handler.clear_database` call events. -/
def Event.isDbClearDatabase : Event → Bool
  | Event.dbClearDatabase => true
  | _ => false

/-- Recogniser for events that mutate Storage (persistence calls). -/
def Event.isDbMutation : Event → Bool
  | Event.dbSaveCookie _ => true
  | Event.dbClearCookies => true
  | Event.dbClearDatabase => true
  | _ => false

/-- A structurally valid cookie (contains all three required sub-fields),
used for concrete instances. -/
def okCookie : String := "SESSDATA=a1; bili_jct=b2; DedeUserID=3"

/-- Concrete page state: a valid cookie is active in Config, stored in the
database and typed into the input field. -/
def stGoodInput : SettingsPage :=
  { config := { cookie := some okCookie, DELAY_MIN := 1, DELAY_MAX := 3, MAX_RETRIES := 3 }
    db := { cookie := some okCookie, needUpdate := false, rowCount := 5 }
    cookieInput := okCookie
    cookieStatusLabel := "当前状态: Cookie有效"
    minDelay := 1, maxDelay := 3, maxRetries := 3 }

/-- Concrete page state: a valid cookie is active in Config and stored in
the database, but a malformed cookie has been typed into the input
field. -/
def stBadInput : SettingsPage :=
  { stGoodInput with cookieInput := "badcookie" }

/-- A structurally valid cookie is never the empty string (it contains
`SESSDATA`). -/
theorem validate_cookie_ne_empty (c : String)
    (h : Config.validate_cookie c = true) : c ≠ "" := by
  intro hc
  subst hc
  exact absurd h (by decide)

/-- Claim C9: on every value change of any one of the three
crawler-parameter spin boxes (delay-min, delay-max, max-retries), all
three current field values are written to Config as a batch — the
resulting Config mirrors all three spin boxes and the trace holds the
three write calls; no path updates only the changed field. -/
theorem change_any_field_writes_all_three (st : SettingsPage) (v : Int) :
    ((SettingsPage.change_min_delay st v).1.config.DELAY_MIN
        = (SettingsPage.change_min_delay st v).1.minDelay
      ∧ (SettingsPage.change_min_delay st v).1.config.DELAY_MAX
        = (SettingsPage.change_min_delay st v).1.maxDelay
      ∧ (SettingsPage.change_min_delay st v).1.config.MAX_RETRIES
        = (SettingsPage.change_min_delay st v).1.maxRetries
      ∧ (SettingsPage.change_min_delay st v).2
        = [Event.configWriteDelayMin (clampSpin 0 100 v),
           Event.configWriteDelayMax st.maxDelay,
           Event.configWriteMaxRetries st.maxRetries])
    ∧ ((SettingsPage.change_max_delay st v).1.config.DELAY_MIN
        = (SettingsPage.change_max_delay st v).1.minDelay
      ∧ (SettingsPage.change_max_delay st v).1.config.DELAY_MAX
        = (SettingsPage.change_max_delay st v).1.maxDelay
      ∧ (SettingsPage.change_max_delay st v).1.config.MAX_RETRIES
        = (SettingsPage.change_max_delay st v).1.maxRetries
      ∧ (SettingsPage.change_max_delay st v).2
        = [Event.configWriteDelayMin st.minDelay,
           Event.configWriteDelayMax (clampSpin 0 100 v),
           Event.configWriteMaxRetries st.maxRetries])
    ∧ ((SettingsPage.change_max_retries st v).1.config.DELAY_MIN
        = (SettingsPage.change_max_retries st v).1.minDelay
      ∧ (SettingsPage.change_max_retries st v).1.config.DELAY_MAX
        = (SettingsPage.change_max_retries st v).1.maxDelay
      ∧ (SettingsPage.change_max_retries st v).1.config.MAX_RETRIES
        = (SettingsPage.change_max_retries st v).1.maxRetries
      ∧ (SettingsPage.change_max_retries st v).2
        = [Event.configWriteDelayMin st.minDelay,
           Event.configWriteDelayMax st.maxDelay,
           Event.configWriteMaxRetries (clampSpin 0 10 v)]) :=
  ⟨⟨rfl, rfl, rfl, rfl⟩, ⟨rfl, rfl, rfl, rfl⟩, ⟨rfl, rfl, rfl, rfl⟩⟩

/-- Claim C8: `clear_database` leaves stored data untouched when the
confirmation is not affirmative; when affirmative, it calls
`db_handler.clear_database()` exactly once. -/
theorem clear_database_confirmation (st : SettingsPage) (confirmed : Bool) :
    (confirmed = false → SettingsPage.clear_database st confirmed = (st, []))
    ∧ (confirmed = true →
        ((SettingsPage.clear_database st confirmed).2.filter Event.isDbClearDatabase)
          = [Event.dbClearDatabase]
        ∧ (SettingsPage.clear_database st confirmed).1
          = { st with db := st.db.clear_database }) := by
  cases confirmed <;>
    simp [SettingsPage.clear_database, Event.isDbClearDatabase, List.filter]

/-- Witness for claim C8 at a concrete state: the refusal branch is the
identity and the confirmed branch calls `clear_database` once. -/
theorem clear_database_confirmation_witness :
    SettingsPage.clear_database stGoodInput false = (stGoodInput, [])
    ∧ ((SettingsPage.clear_database stGoodInput true).2.filter Event.isDbClearDatabase)
      = [Event.dbClearDatabase] :=
  ⟨(clear_database_confirmation stGoodInput false).1 rfl,
   ((clear_database_confirmation stGoodInput true).2 rfl).1⟩

/-- Claim C7: `clear_cookie` leaves Config, Storage and the input field
unchanged unless the user confirms; when confirmed, it results in exactly
one `db_handler.clear_cookies` call, clears Config's in-memory cookie and
leaves the input field empty. -/
theorem clear_cookie_confirmation (st : SettingsPage) (confirmed : Bool) :
    (confirmed = false → SettingsPage.clear_cookie st confirmed = (st, []))
    ∧ (confirmed = true →
        ((SettingsPage.clear_cookie st confirmed).2.filter Event.isDbClearCookies)
          = [Event.dbClearCookies]
        ∧ (SettingsPage.clear_cookie st confirmed).1.config.cookie = none
        ∧ (SettingsPage.clear_cookie st confirmed).1.db.cookie = none
        ∧ (SettingsPage.clear_cookie st confirmed).1.cookieInput = "") := by
  cases confirmed <;>
    simp [SettingsPage.clear_cookie, SettingsPage.load_settings,
      DbHandler.clear_cookies, DbHandler.get_valid_cookie, Config.clear_cookie,
      Event.isDbClearCookies, List.filter]

/-- Witness for claim C7 at a concrete state: refusing the confirmation
changes nothing; confirming empties the input field and both cookies. -/
theorem clear_cookie_confirmation_witness :
    SettingsPage.clear_cookie stGoodInput false = (stGoodInput, [])
    ∧ (SettingsPage.clear_cookie stGoodInput true).1.config.cookie = none
    ∧ (SettingsPage.clear_cookie stGoodInput true).1.cookieInput = "" :=
  ⟨(clear_cookie_confirmation stGoodInput false).1 rfl,
   ((clear_cookie_confirmation stGoodInput true).2 rfl).2.1,
   ((clear_cookie_confirmation stGoodInput true).2 rfl).2.2.2⟩

/-- Claim C5: `load_settings` maps the `get_valid_cookie` result three
ways — `(none, _)` to the unset status with the input field untouched,
`(some text, true)` to the expiring status and `(some text, false)` to the
valid status for every non-empty `text` — and whenever a non-empty cookie
is stored, the input field is set to its text, overwriting any unsaved
edits. -/
theorem load_settings_status (st : SettingsPage) :
    (st.db.cookie = none →
        (SettingsPage.load_settings st).1.cookieStatusLabel = "当前状态: 未设置Cookie"
        ∧ (SettingsPage.load_settings st).1.cookieInput = st.cookieInput)
    ∧ (∀ c, c ≠ "" → st.db.cookie = some c →
        (SettingsPage.load_settings st).1.cookieInput = c
        ∧ (st.db.needUpdate = true →
            (SettingsPage.load_settings st).1.cookieStatusLabel
              = "当前状态: Cookie即将过期")
        ∧ (st.db.needUpdate = false →
            (SettingsPage.load_settings st).1.cookieStatusLabel
              = "当前状态: Cookie有效")) := by
  constructor
  · intro h
    simp [SettingsPage.load_settings, DbHandler.get_valid_cookie, h]
  · intro c hc h
    cases hu : st.db.needUpdate <;>
      simp [SettingsPage.load_settings, DbHandler.get_valid_cookie, h, hc, hu]

/-- Witness for claim C5 at a concrete state: a stored healthy cookie is
loaded into the input field and reported as valid. -/
theorem load_settings_status_witness :
    (SettingsPage.load_settings stBadInput).1.cookieInput = okCookie
    ∧ (SettingsPage.load_settings stBadInput).1.cookieStatusLabel
      = "当前状态: Cookie有效" :=
  ⟨((load_settings_status stBadInput).2 okCookie (by decide) rfl).1,
   ((load_settings_status stBadInput).2 okCookie (by decide) rfl).2.2 rfl⟩

/-- Claim C10: in the cookie-helper completion callback, when
`config.set_cookie` returns `False` (no exception), no
`db_handler.save_cookie` call occurs, the status is not refreshed and no
message box of any kind is shown, while the rejected cookie text remains
in the input field: the whole run is the input-field write plus the single
rejected `set_cookie` call. -/
theorem on_cookie_received_rejected (st : SettingsPage) (cookie : String)
    (h : Config.validate_cookie cookie = false) :
    SettingsPage.on_cookie_received none st cookie =
      ({ st with cookieInput := cookie }, [Event.configSetCookie cookie]) := by
  simp [SettingsPage.on_cookie_received, Config.set_cookie, h]

/-- Witness for claim C10 at a concrete state: a malformed cookie from the
helper is shown in the input field and silently dropped. -/
theorem on_cookie_received_rejected_witness :
    SettingsPage.on_cookie_received none stGoodInput "badcookie" =
      ({ stGoodInput with cookieInput := "badcookie" },
       [Event.configSetCookie "badcookie"]) :=
  on_cookie_received_rejected stGoodInput "badcookie" (by decide)

/-- Claim C6: `validate_cookie` never mutates the page state and performs
no persistence call; on empty (stripped) input it shows a warning without
consulting Config; otherwise it delegates to `config.validate_cookie` and
reports its verdict, so any cookie missing one of the three required
sub-fields is reported as a failure. -/
theorem validate_cookie_delegates (st : SettingsPage) :
    (SettingsPage.validate_cookie st).1 = st
    ∧ ((SettingsPage.validate_cookie st).2.filter Event.isDbMutation) = []
    ∧ (pyStrip st.cookieInput = "" →
        (SettingsPage.validate_cookie st).2 = [Event.msgWarning "请输入Cookie"])
    ∧ (pyStrip st.cookieInput ≠ "" →
        (SettingsPage.validate_cookie st).2 =
          [Event.configValidateCookie (pyStrip st.cookieInput),
           if Config.validate_cookie (pyStrip st.cookieInput) then
             Event.msgInfo "Cookie格式验证通过"
           else Event.msgWarning "Cookie格式不正确或缺少必要字段"])
    ∧ (pyStrip st.cookieInput ≠ "" →
        (hasField (pyStrip st.cookieInput) "SESSDATA" = false
          ∨ hasField (pyStrip st.cookieInput) "bili_jct" = false
          ∨ hasField (pyStrip st.cookieInput) "DedeUserID" = false) →
        Event.msgWarning "Cookie格式不正确或缺少必要字段"
          ∈ (SettingsPage.validate_cookie st).2) := by
  by_cases he : pyStrip st.cookieInput = ""
  · simp [SettingsPage.validate_cookie, Event.isDbMutation, List.filter, he]
  · by_cases hv : Config.validate_cookie (pyStrip st.cookieInput) = true
    · refine ⟨?_, ?_, fun h => absurd h he, fun _ => ?_, fun _ hmiss => ?_⟩
      · simp [SettingsPage.validate_cookie, he, hv]
      · simp [SettingsPage.validate_cookie, Event.isDbMutation, List.filter, he, hv]
      · simp [SettingsPage.validate_cookie, he, hv]
      · exfalso
        have := hv
        simp [Config.validate_cookie] at this
        rcases hmiss with h1 | h1 | h1 <;> simp [h1] at this
    · refine ⟨?_, ?_, fun h => absurd h he, fun _ => ?_, fun _ _ => ?_⟩
      · simp [SettingsPage.validate_cookie, he, hv]
      · simp [SettingsPage.validate_cookie, Event.isDbMutation, List.filter, he, hv]
      · simp [SettingsPage.validate_cookie, he, hv]
      · simp [SettingsPage.validate_cookie, he, hv]

/-- Witness for claim C6 at a concrete state: a cookie missing all three
sub-fields is reported as a failure, with the page state untouched. -/
theorem validate_cookie_delegates_witness :
    (SettingsPage.validate_cookie stBadInput).1 = stBadInput
    ∧ Event.msgWarning "Cookie格式不正确或缺少必要字段"
      ∈ (SettingsPage.validate_cookie stBadInput).2 :=
  ⟨(validate_cookie_delegates stBadInput).1,
   (validate_cookie_delegates stBadInput).2.2.2.2 (by decide)
     (Or.inl (by decide))⟩

/-- Claim C3: for every well-formed (non-empty after stripping,
structurally valid) cookie in the input field, `save_cookie` performs
exactly one `config.set_cookie` call and exactly one
`db_handler.save_cookie` call, with the `set_cookie` call before the
`save_cookie` call — the full trace is clear, set, save, reload,
success message. -/
theorem save_cookie_success_calls (st : SettingsPage)
    (hne : pyStrip st.cookieInput ≠ "")
    (hok : Config.validate_cookie (pyStrip st.cookieInput) = true) :
    ((SettingsPage.save_cookie st).2.filter Event.isConfigSetCookie)
      = [Event.configSetCookie (pyStrip st.cookieInput)]
    ∧ ((SettingsPage.save_cookie st).2.filter Event.isDbSaveCookie)
      = [Event.dbSaveCookie (pyStrip st.cookieInput)]
    ∧ (SettingsPage.save_cookie st).2 =
      [Event.configClearCookie, Event.configSetCookie (pyStrip st.cookieInput),
       Event.dbSaveCookie (pyStrip st.cookieInput), Event.dbGetValidCookie,
       Event.msgInfo "Cookie保存成功"] := by
  simp [SettingsPage.save_cookie, SettingsPage.load_settings, Config.set_cookie,
    Event.isConfigSetCookie, Event.isDbSaveCookie, List.filter, hne, hok]

/-- Witness for claim C3 at a concrete state: saving a valid cookie emits
the clear-set-save-reload-report trace. -/
theorem save_cookie_success_calls_witness :
    ((SettingsPage.save_cookie stGoodInput).2.filter Event.isConfigSetCookie)
      = [Event.configSetCookie (pyStrip stGoodInput.cookieInput)]
    ∧ ((SettingsPage.save_cookie stGoodInput).2.filter Event.isDbSaveCookie)
      = [Event.dbSaveCookie (pyStrip stGoodInput.cookieInput)] :=
  ⟨(save_cookie_success_calls stGoodInput (by decide) (by decide)).1,
   (save_cookie_success_calls stGoodInput (by decide) (by decide)).2.1⟩

/-- Counterexample to claim C1: at a state whose database stores a valid
cookie while a malformed cookie sits in the input field, `save_cookie`
warns and persists nothing — yet the previously stored credential is still
in Storage afterwards, contradicting `no stored credential remains at
all`. -/
theorem save_cookie_stored_survives_failure :
    Event.msgWarning "Cookie格式不正确或缺少必要字段" ∈ (SettingsPage.save_cookie stBadInput).2
    ∧ ((SettingsPage.save_cookie stBadInput).2.filter Event.isDbSaveCookie) = []
    ∧ (SettingsPage.save_cookie stBadInput).1.db.cookie = some okCookie
    ∧ (SettingsPage.save_cookie stBadInput).1.db.cookie ≠ none := by
  refine ⟨by decide, by decide, by decide, by decide⟩

/-- Claim C1 as amended: on non-empty input, `save_cookie` first clears
Config's in-memory cookie, then calls `config.set_cookie`; if that fails
the user is warned, nothing is persisted to Storage and Config's in-memory
cookie is gone — but the previously stored credential remains in Storage,
which is left entirely unchanged. -/
theorem save_cookie_failure_path (st : SettingsPage)
    (hne : pyStrip st.cookieInput ≠ "")
    (hbad : Config.validate_cookie (pyStrip st.cookieInput) = false) :
    (SettingsPage.save_cookie st).2 =
      [Event.configClearCookie, Event.configSetCookie (pyStrip st.cookieInput),
       Event.msgWarning "Cookie格式不正确或缺少必要字段"]
    ∧ (SettingsPage.save_cookie st).1.config.cookie = none
    ∧ (SettingsPage.save_cookie st).1.db = st.db := by
  simp [SettingsPage.save_cookie, Config.set_cookie, Config.clear_cookie, hne, hbad]

/-- Witness for the amended claim C1 at a concrete state: a failed save
leaves Config cookieless and Storage untouched. -/
theorem save_cookie_failure_path_witness :
    (SettingsPage.save_cookie stBadInput).1.config.cookie = none
    ∧ (SettingsPage.save_cookie stBadInput).1.db = stBadInput.db :=
  ⟨(save_cookie_failure_path stBadInput (by decide) (by decide)).2.1,
   (save_cookie_failure_path stBadInput (by decide) (by decide)).2.2⟩

/-- Counterexample to claim C2: at a state whose Config holds a valid
cookie while a malformed cookie sits in the input field, `save_cookie`
shows the validation warning, but Config has already been mutated (its
in-memory cookie was cleared) before the warning — the action was not
aborted before any state mutation. -/
theorem save_cookie_mutates_before_warning :
    Event.msgWarning "Cookie格式不正确或缺少必要字段" ∈ (SettingsPage.save_cookie stBadInput).2
    ∧ (SettingsPage.save_cookie stBadInput).1.config ≠ stBadInput.config := by
  refine ⟨by decide, by decide⟩

/-- Claim C2 as amended: every validation failure (empty input or
malformed cookie) during `validate_cookie` or `save_cookie` shows a
warning and aborts the action with Storage unmutated; Config is also
unmutated in every such case except `save_cookie` with a malformed cookie,
where Config's in-memory cookie has already been cleared before the
warning. -/
theorem validation_failure_aborts (st : SettingsPage) :
    (pyStrip st.cookieInput = "" →
        SettingsPage.validate_cookie st = (st, [Event.msgWarning "请输入Cookie"])
        ∧ SettingsPage.save_cookie st = (st, [Event.msgWarning "请输入Cookie"]))
    ∧ (pyStrip st.cookieInput ≠ "" →
        Config.validate_cookie (pyStrip st.cookieInput) = false →
        (SettingsPage.validate_cookie st).1 = st
        ∧ Event.msgWarning "Cookie格式不正确或缺少必要字段"
            ∈ (SettingsPage.validate_cookie st).2
        ∧ (SettingsPage.save_cookie st).1.db = st.db
        ∧ (SettingsPage.save_cookie st).1.config = st.config.clear_cookie
        ∧ ((SettingsPage.save_cookie st).2.filter Event.isDbMutation) = []
        ∧ Event.msgWarning "Cookie格式不正确或缺少必要字段"
            ∈ (SettingsPage.save_cookie st).2) := by
  constructor
  · intro he
    constructor
    · simp [SettingsPage.validate_cookie, he]
    · simp [SettingsPage.save_cookie, he]
  · intro hne hbad
    refine ⟨?_, ?_, ?_, ?_, ?_, ?_⟩ <;>
      simp [SettingsPage.validate_cookie, SettingsPage.save_cookie,
        Config.set_cookie, Config.clear_cookie, Event.isDbMutation, List.filter,
        hne, hbad]

/-- Witness for the amended claim C2 at a concrete state: the malformed
save warns, leaves Storage alone and ends with Config cleared. -/
theorem validation_failure_aborts_witness :
    (SettingsPage.save_cookie stBadInput).1.db = stBadInput.db
    ∧ Event.msgWarning "Cookie格式不正确或缺少必要字段"
      ∈ (SettingsPage.save_cookie stBadInput).2 :=
  ⟨((validation_failure_aborts stBadInput).2 (by decide) (by decide)).2.2.1,
   ((validation_failure_aborts stBadInput).2 (by decide) (by decide)).2.2.2.2.2⟩

/-- Claim C4: when the cookie helper completes with a cookie string, the
callback writes it into the input field; it persists via
`db_handler.save_cookie` and refreshes the status exactly when structural
validation (hence `config.set_cookie`) succeeds; and under any injected
collaborator exception the run either shows a critical message box or
coincides with the fault-free run, never calling a collaborator twice
(no retry) — the model has no logging at all. -/
theorem on_cookie_received_contract (fault : Option Fault) (st : SettingsPage)
    (cookie : String) :
    (SettingsPage.on_cookie_received fault st cookie).1.cookieInput = cookie
    ∧ (fault = none →
        ((Event.dbSaveCookie cookie ∈ (SettingsPage.on_cookie_received fault st cookie).2
          ∧ Event.dbGetValidCookie ∈ (SettingsPage.on_cookie_received fault st cookie).2)
          ↔ Config.validate_cookie cookie = true))
    ∧ (fault = none → Config.validate_cookie cookie = true →
        (SettingsPage.on_cookie_received fault st cookie).1.db.cookie = some cookie)
    ∧ ((SettingsPage.on_cookie_received fault st cookie).2.filter
        Event.isConfigSetCookie).length ≤ 1
    ∧ ((SettingsPage.on_cookie_received fault st cookie).2.filter
        Event.isDbSaveCookie).length ≤ 1
    ∧ (∀ f, fault = some f →
        (∃ m, Event.msgCritical m ∈ (SettingsPage.on_cookie_received fault st cookie).2)
        ∨ SettingsPage.on_cookie_received fault st cookie
          = SettingsPage.on_cookie_received none st cookie) := by
  by_cases hv : Config.validate_cookie cookie = true
  · have hne : cookie ≠ "" := validate_cookie_ne_empty cookie hv
    match fault with
    | none =>
      cases hu : st.db.needUpdate <;>
        refine ⟨?_, fun _ => ?_, fun _ _ => ?_, ?_, ?_, fun f hf => by simp at hf⟩ <;>
        simp [SettingsPage.on_cookie_received, SettingsPage.load_settings,
          Config.set_cookie, DbHandler.save_cookie, DbHandler.get_valid_cookie,
          Event.isConfigSetCookie, Event.isDbSaveCookie, List.filter, hv, hne, hu]
    | some (Fault.atSetCookie m) =>
      refine ⟨rfl, fun h => by simp at h, fun h => by simp at h, ?_, ?_,
        fun f hf => Or.inl ⟨"处理Cookie失败: " ++ m, ?_⟩⟩ <;>
        simp [SettingsPage.on_cookie_received, Event.isConfigSetCookie,
          Event.isDbSaveCookie, List.filter]
    | some (Fault.atSaveCookie m) =>
      refine ⟨?_, fun h => by simp at h, fun h => by simp at h, ?_, ?_,
        fun f hf => Or.inl ⟨"处理Cookie失败: " ++ m, ?_⟩⟩ <;>
        simp [SettingsPage.on_cookie_received, Config.set_cookie,
          Event.isConfigSetCookie, Event.isDbSaveCookie, List.filter, hv]
  · match fault with
    | none =>
      refine ⟨?_, fun _ => ?_, fun _ hb => absurd hb hv, ?_, ?_,
        fun f hf => by simp at hf⟩ <;>
        simp [SettingsPage.on_cookie_received, Config.set_cookie,
          Event.isConfigSetCookie, Event.isDbSaveCookie, List.filter, hv]
    | some (Fault.atSetCookie m) =>
      refine ⟨rfl, fun h => by simp at h, fun h => by simp at h, ?_, ?_,
        fun f hf => Or.inl ⟨"处理Cookie失败: " ++ m, ?_⟩⟩ <;>
        simp [SettingsPage.on_cookie_received, Event.isConfigSetCookie,
          Event.isDbSaveCookie, List.filter]
    | some (Fault.atSaveCookie m) =>
      refine ⟨?_, fun h => by simp at h, fun h => by simp at h, ?_, ?_,
        fun f hf => Or.inr ?_⟩ <;>
        simp [SettingsPage.on_cookie_received, Config.set_cookie,
          Event.isConfigSetCookie, Event.isDbSaveCookie, List.filter, hv]

/-- Witness for claim C4 at a concrete state: a fault-free helper
completion with a valid cookie fills the input field and persists the
cookie. -/
theorem on_cookie_received_contract_witness :
    (SettingsPage.on_cookie_received none stBadInput okCookie).1.cookieInput = okCookie
    ∧ (SettingsPage.on_cookie_received none stBadInput okCookie).1.db.cookie
      = some okCookie :=
  ⟨(on_cookie_received_contract none stBadInput okCookie).1,
   (on_cookie_received_contract none stBadInput okCookie).2.2.1 rfl (by decide)⟩
